import Mathlib

/-!
Verification development for the ReachPilot outreach pipeline
(`reachpilot.mjs`).  The definitions below are a shallow embedding of the
script's state store, candidate gating, extraction strategies, screening,
dispatch and follow-up logic.  External effects (browser navigation,
network calls, DOM queries) are modelled by explicit outcome records that
enumerate the results the awaited operations can produce, including the
points at which they can throw; the control flow around those outcomes is
translated directly from the source.  Timestamps are milliseconds as Nat.
-/

/-- A candidate record as written to `outreach-state.json` by the script.
Fields that some write sites omit (`skippedReason`, `skippedAt`,
`followedUpAt`, `source`) are `Option`s, with `none` standing for a missing
or `null` JSON field. -/
structure Rec where
  sent : Bool
  sentAt : Option Nat
  skipped : Bool
  skippedReason : Option String
  skippedAt : Option Nat
  replied : Bool
  followedUp : Bool
  followedUpAt : Option Nat
  reelUrl : String
  source : Option String
deriving Repr, DecidableEq

/-- The state object: a JS object keyed by handle, modelled as an
association list (first binding wins on lookup, update rewrites in place,
fresh keys are appended). -/
def StateMap : Type := List (String × Rec)

/-- `state[h]` -/
def lookupRec : StateMap → String → Option Rec
  | [], _ => none
  | (k, r) :: rest, h => if k = h then some r else lookupRec rest h

/-- `state[h] = r` -/
def setRec : StateMap → String → Rec → StateMap
  | [], h, r => [(h, r)]
  | (k, r0) :: rest, h, r =>
      if k = h then (h, r) :: rest else (k, r0) :: setRec rest h r

/-- `state[h]?.sent` coerced to a boolean (JS truthiness of the field). -/
def sentFlag (st : StateMap) (h : String) : Bool :=
  match lookupRec st h with
  | some r => r.sent
  | none => false

/-- `state[h].skippedReason === "screening"` guarded by `state[h]`
being present. -/
def screeningFlag (st : StateMap) (h : String) : Bool :=
  match lookupRec st h with
  | some r => r.skippedReason = some "screening"
  | none => false

/-- A handle is in a terminal status for the gate: already sent, or
screened out. -/
def terminalFor (st : StateMap) (h : String) : Bool :=
  sentFlag st h || screeningFlag st h

-- ── String helpers mirroring the JS regexes ─────────────────────────────────

/-- The character class `[a-zA-Z0-9._]` used by every handle regex. -/
def isHandleChar (c : Char) : Bool :=
  c.isAlphanum || c == '.' || c == '_'

/-- Does the first list start with the second one? -/
def listStartsWith : List Char → List Char → Bool
  | _, [] => true
  | [], _ :: _ => false
  | c :: cs, p :: ps => c == p && listStartsWith cs ps

/-- Substring test (used for `answer.toUpperCase().includes(...)`). -/
def containsSub : List Char → List Char → Bool
  | [], pat => listStartsWith [] pat
  | c :: cs, pat => listStartsWith (c :: cs) pat || containsSub cs pat

/-- Case-insensitive literal match: if `cs` starts with `pat` up to
ASCII case, return the remainder. -/
def stripCI : List Char → List Char → Option (List Char)
  | [], cs => some cs
  | _ :: _, [] => none
  | p :: ps, c :: cs => if c.toLower == p.toLower then stripCI ps cs else none

/-- `String.prototype.trim()` modelled over ASCII whitespace. -/
def trimChars (cs : List Char) : List Char :=
  ((cs.dropWhile Char.isWhitespace).reverse.dropWhile Char.isWhitespace).reverse

/-- `/^\/([a-zA-Z0-9._]{1,30})\/?$/` — a profile path with the bounded
username group used by the in-page extraction strategy.  The group cannot
match fewer characters than the full run (its characters are never `/` or
the end), so the regex accepts exactly a 1-30 character run followed by
nothing or a single slash. -/
def matchProfileHref30 (href : String) : Option String :=
  match href.data with
  | '/' :: rest =>
      let run := rest.takeWhile isHandleChar
      if run.length = 0 || run.length > 30 then none
      else
        match rest.drop run.length with
        | [] => some (String.mk run)
        | ['/'] => some (String.mk run)
        | _ => none
  | _ => none

/-- `/^\/([a-zA-Z0-9._]+)\/?$/` — the unbounded variant used by
`extractCreatorHandle`. -/
def matchProfileHrefAny (href : String) : Option String :=
  match href.data with
  | '/' :: rest =>
      let run := rest.takeWhile isHandleChar
      if run.length = 0 then none
      else
        match rest.drop run.length with
        | [] => some (String.mk run)
        | ['/'] => some (String.mk run)
        | _ => none
  | _ => none

/-- First match of `/@([a-zA-Z0-9._]{1,30})/`: scan for an `@` followed by
at least one handle character; the greedy group takes at most 30. -/
def matchAtHandleAux : List Char → Option String
  | [] => none
  | '@' :: rest =>
      let run := rest.takeWhile isHandleChar
      if run.isEmpty then matchAtHandleAux rest
      else some (String.mk (run.take 30))
  | _ :: rest => matchAtHandleAux rest

def matchAtHandle (s : String) : Option String :=
  matchAtHandleAux s.data

/-- The `\s+on\s+Instagram` tail (case-insensitive, `/i`).  `\s` is
modelled as ASCII whitespace. -/
def matchOnTail (cs : List Char) : Bool :=
  let ws1 := cs.takeWhile Char.isWhitespace
  if ws1.isEmpty then false
  else
    match stripCI ['o', 'n'] (cs.drop ws1.length) with
    | none => false
    | some cs2 =>
        let ws2 := cs2.takeWhile Char.isWhitespace
        if ws2.isEmpty then false
        else (stripCI "instagram".data (cs2.drop ws2.length)).isSome

/-- `/^([a-zA-Z0-9._]{1,30})\s+on\s+Instagram/i`.  The leading group is a
maximal run of handle characters (backtracking to a shorter capture would
place a handle character where `\s` is required, so it never helps); the
regex accepts iff that run has length 1-30 and is followed by the tail. -/
def matchOnInstagram (s : String) : Option String :=
  let run := s.data.takeWhile isHandleChar
  if run.length = 0 || run.length > 30 then none
  else if matchOnTail (s.data.drop run.length) then some (String.mk run)
  else none

/-- `/instagram\.com\/([a-zA-Z0-9._]{1,30})\/(?:reel|p)\//` scanned from
the left over the page URL (strategy 3). -/
def strat3Aux : List Char → Option String
  | [] => none
  | c :: rest =>
      if listStartsWith (c :: rest) "instagram.com/".data then
        let tail := (c :: rest).drop 14
        let run := tail.takeWhile isHandleChar
        if run.length ≥ 1 && run.length ≤ 30 &&
            (listStartsWith (tail.drop run.length) "/reel/".data ||
             listStartsWith (tail.drop run.length) "/p/".data)
        then some (String.mk run)
        else strat3Aux rest
      else strat3Aux rest

-- ── The three username-extraction strategies of the search pipeline ─────────

/-- The `skipPages` denylist declared inside strategy 1 of
`searchInstagramForCreators`. -/
def skipPages : List String :=
  ["explore", "reels", "reel", "accounts", "direct", "stories", "p", "tv",
   "about", "legal", "privacy", "terms", "tags", "locations"]

/-- The smaller `skip` denylist of the standalone `extractCreatorHandle`
helper. -/
def skipDialog : List String :=
  ["explore", "reels", "reel", "accounts", "direct",
   "stories", "p", "about", "legal", "privacy", "terms"]

/-- A post page as seen by the strategies: the `a[href^="/"]` anchors
(href plus the text of their first `span` child, if any), the `og:title`
meta content, the document title, and the page URL. -/
structure PostPage where
  links : List (String × Option String)
  ogTitle : Option String
  docTitle : String
  url : String
deriving Repr, DecidableEq

/-- Strategy 1, first pass: an anchor whose profile-path username is not
denylisted and whose span text (trimmed) equals the username. -/
def strat1A : List (String × Option String) → Option String
  | [] => none
  | (href, span) :: rest =>
      match matchProfileHref30 href with
      | none => strat1A rest
      | some m =>
          if skipPages.contains m then strat1A rest
          else
            match span with
            | some s => if trimChars s.data = m.data then some m else strat1A rest
            | none => strat1A rest

/-- Strategy 1, fallback pass: the first anchor whose profile-path
username is not denylisted. -/
def strat1B : List (String × Option String) → Option String
  | [] => none
  | (href, _) :: rest =>
      match matchProfileHref30 href with
      | none => strat1B rest
      | some m => if skipPages.contains m then strat1B rest else some m

/-- Strategy 1: the in-page DOM evaluation. -/
def strat1 (links : List (String × Option String)) : Option String :=
  match strat1A links with
  | some h => some h
  | none => strat1B links

/-- Strategy 2: `og:title` meta then document title, each tried against
the `@handle` pattern and then the `handle on Instagram` pattern.  Note
that neither pattern consults the denylist. -/
def strat2 (ogTitle : Option String) (docTitle : String) : Option String :=
  let fromTitle :=
    match matchAtHandle docTitle with
    | some m => some m
    | none => matchOnInstagram docTitle
  match ogTitle with
  | some t =>
      match matchAtHandle t with
      | some m => some m
      | none =>
          match matchOnInstagram t with
          | some m => some m
          | none => fromTitle
  | none => fromTitle

/-- Strategy 3: the page URL pattern (no denylist either). -/
def strat3 (url : String) : Option String :=
  strat3Aux url.data

/-- The tiered extraction in the post tab of
`searchInstagramForCreators`: strategy 1, else strategy 2, else
strategy 3. -/
def extractHandleFromPost (p : PostPage) : Option String :=
  match strat1 p.links with
  | some h => some h
  | none =>
      match strat2 p.ogTitle p.docTitle with
      | some h => some h
      | none => strat3 p.url

/-- The standalone `extractCreatorHandle` helper (tries a list of
selectors; each yields an optional href). -/
def extractCreatorHandle : List (Option String) → Option String
  | [] => none
  | none :: rest => extractCreatorHandle rest
  | some href :: rest =>
      match matchProfileHrefAny href with
      | none => extractCreatorHandle rest
      | some m =>
          if skipDialog.contains m then extractCreatorHandle rest else some m

-- ── Profile screening (`screenProfile`) ─────────────────────────────────────

/-- ASCII upper-casing of a character list (for
`answer.toUpperCase().includes("MATCH: YES")`). -/
def upperChars (cs : List Char) : List Char :=
  cs.map Char.toUpper

/-- ASCII lower-casing (for `handle.toLowerCase()` comparisons). -/
def lowerChars (cs : List Char) : List Char :=
  cs.map Char.toLower

/-- Match of `/GENDER:\s*(male|female|unknown)/i` at one position. -/
def genderAt (cs : List Char) : Option String :=
  match stripCI "gender:".data cs with
  | none => none
  | some rest =>
      let rest2 := rest.dropWhile Char.isWhitespace
      if (stripCI "male".data rest2).isSome then some "male"
      else if (stripCI "female".data rest2).isSome then some "female"
      else if (stripCI "unknown".data rest2).isSome then some "unknown"
      else none

def parseGenderAux : List Char → Option String
  | [] => none
  | c :: rest =>
      match genderAt (c :: rest) with
      | some g => some g
      | none => parseGenderAux rest

/-- `answer.match(/GENDER:\s*(male|female|unknown)/i)` with the default
`"unknown"` and the lower-cased capture. -/
def parseGender (answer : List Char) : String :=
  (parseGenderAux answer).getD "unknown"

structure ScreenResult where
  passes : Bool
  gender : String
deriving Repr, DecidableEq

/-- The classification round trip: `raise` when the
`fetch`/`res.json()` pipeline threw; `ok content` when it produced JSON,
with `content` the value of `data.choices?.[0]?.message?.content`. -/
inductive ScreenResp where
  | raise
  | ok (content : Option String)
deriving Repr, DecidableEq

/-- `screenProfile`, as a function of the classification round trip.
`resp = .error ()` means the `fetch` / `res.json()` pipeline threw
(network failure, timeout, non-JSON body): the surrounding `catch`
returns `passes: true` ("on error, don't skip").  `resp = .ok content`
means the HTTP exchange produced JSON, and `content` is the value of
`data.choices?.[0]?.message?.content` — `none` when the body has no such
field (e.g. a provider 4xx/5xx error object, which `fetch` does NOT
throw on), in which case `answer` defaults to the empty string. -/
def screenProfileFn (screeningEnabled openaiKey : Bool)
    (resp : ScreenResp) : ScreenResult :=
  if !(screeningEnabled && openaiKey) then ⟨true, "unknown"⟩
  else
    match resp with
    | .raise => ⟨true, "unknown"⟩
    | .ok content =>
        let answer := trimChars (content.getD "").data
        ⟨containsSub (upperChars answer) "MATCH: YES".data, parseGender answer⟩

-- ── Search expansion URL collection ─────────────────────────────────────────

/-- `href.startsWith('http') ? href : "https://www.instagram.com" + href` -/
def fullUrl (href : String) : String :=
  if listStartsWith href.data "http".data then href
  else "https://www.instagram.com" ++ href

/-- The suggestion-URL loop: at most the first 5 suggestion links, null
hrefs dropped, each resolved to a full URL. -/
def collectSuggestionUrls (links : List (Option String)) : List String :=
  ((links.take 5).filterMap id).map fullUrl

/-- The per-suggestion post-URL loop: the first `min(length, 24)` link
elements, null hrefs dropped, resolved to full URLs and deduplicated by
URL.  The source keeps a separate `seenUrls` set whose membership always
equals the accumulated list, so the accumulator serves as both. -/
def collectReelUrls (links : List (Option String)) : List String :=
  (links.take 24).foldl
    (fun acc l =>
      match l with
      | none => acc
      | some href =>
          let u := fullUrl href
          if acc.contains u then acc else acc ++ [u])
    []

/-- All post URLs processed for one keyword, in order: the concatenation
of the per-suggestion collections. -/
def allReelUrls (suggestions : List (List (Option String))) : List String :=
  (suggestions.map collectReelUrls).flatten

-- ── Reply checking (`checkReply`) ───────────────────────────────────────────

structure ReplyResult where
  replied : Bool
  error : Bool
deriving Repr, DecidableEq

/-- What the DM thread UI yields: whether the Message button appeared
within its timeout, and the number of `div[role="row"]` elements
(`none` when that query threw). -/
structure ReplyOutcome where
  btnFound : Bool
  rows : Option Nat
deriving Repr, DecidableEq

/-- `checkReply` as a function of the UI outcome. -/
def checkReply (o : ReplyOutcome) : ReplyResult :=
  if !o.btnFound then ⟨false, true⟩
  else
    match o.rows with
    | none => ⟨false, true⟩
    | some n => ⟨decide (n > 6), false⟩

-- ── Events and configuration ────────────────────────────────────────────────

/-- Observable operations of a run, used to state which side effects a
candidate triggers.  Tab levels follow the spec: 2 = content/post tab,
3 = profile tab. -/
inductive Event where
  | openTab (level : Nat)
  | closeTab (level : Nat)
  | debugCap
  | admission (h : String)
  | screenCall (h : String)
  | sendCall (h : String)
  | followupSend (h : String)
  | saveSt
deriving Repr, DecidableEq

/-- The configuration values the gating logic reads:
`CONFIG.instagram?.handle || ""`, `SCREENING_ENABLED`, and whether
`OPENAI_KEY` is set. -/
structure Config where
  ownHandle : String
  screeningEnabled : Bool
  openaiKey : Bool
deriving Repr, DecidableEq

/-- `ownHandle && handle.toLowerCase() === ownHandle.toLowerCase()` -/
def ownSkip (cfg : Config) (h : String) : Bool :=
  !(cfg.ownHandle == "") && lowerChars h.data == lowerChars cfg.ownHandle.data

-- ── The per-post iteration of `searchInstagramForCreators` ──────────────────

/-- External outcome of one post iteration: which awaited operations
succeed, the DOM snapshot the strategies read, and the results of the
screening and dispatch interactions.  `send = none` means `sendMessages`
threw out of its unguarded message-typing loop; `some b` is its return
value. -/
structure PostOutcome where
  newPageOk : Bool
  gotoOk : Bool
  page : PostPage
  profileNewPageOk : Bool
  profileGotoOk : Bool
  screenRaise : Bool
  screenResp : ScreenResp
  send : Option Bool
deriving Repr, DecidableEq

/-- The record written on a screening rejection in the search pipeline. -/
def screenedOutRec (now : Nat) (reelUrl : String) (src : Option String) : Rec :=
  { sent := false, sentAt := none, skipped := true,
    skippedReason := some "screening", skippedAt := some now,
    replied := false, followedUp := false, followedUpAt := none,
    reelUrl := reelUrl, source := src }

/-- The record written after a completed `sendMessages` call. -/
def dispatchRec (now : Nat) (success : Bool) (reelUrl : String)
    (src : Option String) : Rec :=
  { sent := success, sentAt := if success then some now else none,
    skipped := !success, skippedReason := none, skippedAt := none,
    replied := false, followedUp := false, followedUpAt := none,
    reelUrl := reelUrl, source := src }

/-- The part of a post iteration that runs once a username has been
extracted: the in-run gate checks, then the profile phase (the inner
try/catch).  Closing a tab is modelled as always succeeding; the
`catch (err)` handlers close whichever of the two tabs is still open, so
every branch below restores both levels before the iteration ends. -/
def processPostWith (cfg : Config) (now : Nat) (st : StateMap)
    (found : List String) (reelUrl : String) (o : PostOutcome)
    (handle : String) : StateMap × List String × List Event :=
  if ownSkip cfg handle then
    (st, found, [.openTab 2, .closeTab 2])
  else if sentFlag st handle then
    (st, found, [.openTab 2, .closeTab 2])
  else if screeningFlag st handle then
    (st, found, [.openTab 2, .closeTab 2])
  else if found.contains handle then
    (st, found, [.openTab 2, .closeTab 2])
  else
    -- the gate admits the candidate; profile phase (inner try)
    if !o.profileNewPageOk then
      -- context.newPage() threw: inner catch sees profileTab null,
      -- then the post tab is closed after the inner try/catch.
      (st, found, [.openTab 2, .admission handle, .closeTab 2])
    else if !o.profileGotoOk then
      (st, found,
       [.openTab 2, .admission handle, .openTab 3, .debugCap,
        .closeTab 3, .closeTab 2])
    else if o.screenRaise then
      -- screenProfile's pre-fetch page operations threw.
      (st, found,
       [.openTab 2, .admission handle, .openTab 3,
        .screenCall handle, .debugCap, .closeTab 3, .closeTab 2])
    else
      let sr := screenProfileFn cfg.screeningEnabled cfg.openaiKey
          o.screenResp
      if !sr.passes then
        (setRec st handle (screenedOutRec now reelUrl (some "ig")),
         found,
         [.openTab 2, .admission handle, .openTab 3,
          .screenCall handle, .saveSt, .closeTab 3, .closeTab 2])
      else
        match o.send with
        | none =>
            -- sendMessages threw: inner catch closes the profile
            -- tab; no state write happens.
            (st, found,
             [.openTab 2, .admission handle, .openTab 3,
              .screenCall handle, .sendCall handle, .debugCap,
              .closeTab 3, .closeTab 2])
        | some success =>
            (setRec st handle
               (dispatchRec now success reelUrl (some "ig")),
             if success then found ++ [handle] else found,
             [.openTab 2, .admission handle, .openTab 3,
              .screenCall handle, .sendCall handle, .saveSt,
              .closeTab 3, .closeTab 2])

/-- One iteration of the per-post loop in `searchInstagramForCreators`
(the body of `for j`).  Returns the state object, the in-run `found`
list, and the event trace of the iteration. -/
def processPost (cfg : Config) (now : Nat) (st : StateMap)
    (found : List String) (reelUrl : String) (o : PostOutcome) :
    StateMap × List String × List Event :=
  if !o.newPageOk then
    -- context.newPage() threw: postTab is still null, outer catch has
    -- nothing to close.
    (st, found, [])
  else if !o.gotoOk then
    -- goto / dismissPopups threw: outer catch captures debug and closes
    -- the post tab.
    (st, found, [.openTab 2, .debugCap, .closeTab 2])
  else
    match extractHandleFromPost o.page with
    | none =>
        -- "Could not find username on post page"
        (st, found, [.openTab 2, .debugCap, .closeTab 2])
    | some handle => processPostWith cfg now st found reelUrl o handle

/-- The post loop: posts are pairs of the post URL and the external
outcome of processing it. -/
def processPosts (cfg : Config) (now : Nat) :
    List (String × PostOutcome) → StateMap → List String →
    StateMap × List String × List Event
  | [], st, found => (st, found, [])
  | (url, o) :: rest, st, found =>
      let r1 := processPost cfg now st found url o
      let r2 := processPosts cfg now rest r1.1 r1.2.1
      (r2.1, r2.2.1, r1.2.2 ++ r2.2.2)

-- ── The `runSend` creator loop ──────────────────────────────────────────────

/-- The fields of a cached creator that the send loop reads. -/
structure CreatorC where
  handle : String
  reelUrl : String
deriving Repr, DecidableEq

/-- Outcome of one `runSend` iteration.  In `runSend`, exceptions thrown
by navigation, screening page operations or `sendMessages` are only
caught by the top-level handler, which flushes the state and ends the
run. -/
inductive RunSendOutcome where
  | navRaise
  | screenRaise
  | screened (resp : ScreenResp) (send : Option Bool)
deriving Repr, DecidableEq

/-- One iteration of the `runSend` creator loop; the final Bool reports
whether the iteration aborted the run. -/
def runSendStep (cfg : Config) (now : Nat) (st : StateMap) (c : CreatorC)
    (o : RunSendOutcome) : StateMap × List Event × Bool :=
  if sentFlag st c.handle then (st, [], false)
  else if screeningFlag st c.handle then (st, [], false)
  else
    match o with
    | .navRaise => (st, [], true)
    | .screenRaise => (st, [.screenCall c.handle], true)
    | .screened resp send =>
        let sr := screenProfileFn cfg.screeningEnabled cfg.openaiKey resp
        if !sr.passes then
          -- runSend's screening record carries no skippedAt and no source
          (setRec st c.handle
             { sent := false, sentAt := none, skipped := true,
               skippedReason := some "screening", skippedAt := none,
               replied := false, followedUp := false, followedUpAt := none,
               reelUrl := c.reelUrl, source := none },
           [.screenCall c.handle, .saveSt], false)
        else
          match send with
          | none => (st, [.screenCall c.handle, .sendCall c.handle], true)
          | some success =>
              (setRec st c.handle (dispatchRec now success c.reelUrl none),
               [.screenCall c.handle, .sendCall c.handle, .saveSt], false)

/-- The `runSend` loop; on an abort the top-level catch performs one more
`saveState` and the remaining creators are not processed. -/
def runSendLoop (cfg : Config) (now : Nat) :
    List (CreatorC × RunSendOutcome) → StateMap → StateMap × List Event
  | [], st => (st, [])
  | (c, o) :: rest, st =>
      let r1 := runSendStep cfg now st c o
      if r1.2.2 then (r1.1, r1.2.1 ++ [.saveSt])
      else
        let r2 := runSendLoop cfg now rest r1.1
        (r2.1, r1.2.1 ++ r2.2)

-- ── The `runIGSearch` per-handle loop ───────────────────────────────────────

/-- Outcome of one iteration of the loop over handles returned by
`searchInstagramForCreators`.  Here `context.newPage()` sits outside the
per-handle try/catch (its failure aborts the run), while everything
inside the try is caught per handle and the loop continues. -/
inductive IGOutcome where
  | newPageRaise
  | navRaise
  | screenRaise
  | screened (resp : ScreenResp) (send : Option Bool)
deriving Repr, DecidableEq

def igSearchStep (cfg : Config) (now : Nat) (st : StateMap) (h : String)
    (o : IGOutcome) : StateMap × List Event × Bool :=
  if ownSkip cfg h then (st, [], false)
  else if sentFlag st h then (st, [], false)
  else if screeningFlag st h then (st, [], false)
  else
    match o with
    | .newPageRaise => (st, [], true)
    | .navRaise => (st, [], false)
    | .screenRaise => (st, [.screenCall h], false)
    | .screened resp send =>
        let sr := screenProfileFn cfg.screeningEnabled cfg.openaiKey resp
        if !sr.passes then
          (setRec st h (screenedOutRec now "" (some "ig-search")),
           [.screenCall h, .saveSt], false)
        else
          match send with
          | none => (st, [.screenCall h, .sendCall h], false)
          | some success =>
              (setRec st h (dispatchRec now success "" (some "ig-search")),
               [.screenCall h, .sendCall h, .saveSt], false)

def igSearchLoop (cfg : Config) (now : Nat) :
    List (String × IGOutcome) → StateMap → StateMap × List Event
  | [], st => (st, [])
  | (h, o) :: rest, st =>
      let r1 := igSearchStep cfg now st h o
      if r1.2.2 then (r1.1, r1.2.1 ++ [.saveSt])
      else
        let r2 := igSearchLoop cfg now rest r1.1
        (r2.1, r1.2.1 ++ r2.2)

-- ── The `runFollowup` sweep ─────────────────────────────────────────────────

/-- `daysSinceSent < 3`, computed in milliseconds.  A missing `sentAt`
gives `NaN < 3`, which is false in JS, so the comparison is false. -/
def daysLt3 (now : Nat) (sentAt : Option Nat) : Bool :=
  match sentAt with
  | some t => decide (now - t < 259200000)
  | none => false

/-- External outcome of one follow-up iteration: whether the navigation
around `checkReply` threw (propagating to the top-level catch and ending
the run), what the DM thread showed, and whether the follow-up message
input sequence succeeded. -/
structure FollowupOutcome where
  navRaise : Bool
  reply : ReplyOutcome
  inputOk : Bool
deriving Repr, DecidableEq

/-- One iteration of the `runFollowup` creator loop; the final Bool
reports a run abort. -/
def processFollowupCreator (now : Nat) (st : StateMap) (h : String)
    (o : FollowupOutcome) : StateMap × List Event × Bool :=
  match lookupRec st h with
  | none => (st, [], false)
  | some s =>
      if !s.sent then (st, [], false)
      else if o.navRaise then (st, [], true)
      else
        let result := checkReply o.reply
        if result.replied then
          (setRec st h { s with replied := true }, [.saveSt], false)
        else if !result.error && !s.followedUp then
          if daysLt3 now s.sentAt then
            -- "Waiting for 3 days" — continue, skipping even saveState
            (st, [], false)
          else if o.inputOk then
            (setRec st h
               { s with followedUp := true, followedUpAt := some now },
             [.followupSend h, .saveSt], false)
          else
            -- "Could not send follow-up."
            (st, [.saveSt], false)
        else
          (st, [.saveSt], false)

def runFollowupLoop (now : Nat) :
    List (String × FollowupOutcome) → StateMap → StateMap × List Event
  | [], st => (st, [])
  | (h, o) :: rest, st =>
      let r1 := processFollowupCreator now st h o
      if r1.2.2 then (r1.1, r1.2.1 ++ [.saveSt])
      else
        let r2 := runFollowupLoop now rest r1.1
        (r2.1, r1.2.1 ++ r2.2)

-- ── Basic state-store lemmas ────────────────────────────────────────────────

theorem lookupRec_setRec_self (st : StateMap) (h : String) (r : Rec) :
    lookupRec (setRec st h r) h = some r := by
  induction st with
  | nil => simp [setRec, lookupRec]
  | cons p rest ih =>
      by_cases hk : p.1 = h
      · simp [setRec, lookupRec, hk]
      · simp [setRec, lookupRec, hk, ih]

theorem lookupRec_setRec_ne (st : StateMap) (g h : String) (r : Rec)
    (hne : g ≠ h) : lookupRec (setRec st g r) h = lookupRec st h := by
  induction st with
  | nil => simp [setRec, lookupRec, hne]
  | cons p rest ih =>
      by_cases hk : p.1 = g
      · simp [setRec, lookupRec, hk, hne]
      · simp [setRec, lookupRec, hk, ih]

theorem terminalFor_congr (st st' : StateMap) (h : String)
    (heq : lookupRec st' h = lookupRec st h) :
    terminalFor st' h = terminalFor st h := by
  unfold terminalFor sentFlag screeningFlag
  rw [heq]

-- ── Invariance of terminal records through the search pipeline ──────────────

theorem processPostWith_terminal (cfg : Config) (now : Nat) (st : StateMap)
    (found : List String) (url : String) (o : PostOutcome) (h : String)
    (hterm : terminalFor st h = true) :
    processPostWith cfg now st found url o h =
      (st, found, [.openTab 2, .closeTab 2]) := by
  unfold terminalFor at hterm
  rcases Bool.or_eq_true_iff.mp hterm with hs | hs
  · by_cases ho : ownSkip cfg h <;> simp [processPostWith, ho, hs]
  · by_cases ho : ownSkip cfg h <;>
      by_cases hsent : sentFlag st h <;>
        simp [processPostWith, ho, hs, hsent]

theorem processPostWith_other (cfg : Config) (now : Nat) (st : StateMap)
    (found : List String) (url : String) (o : PostOutcome) (g h : String)
    (hne : g ≠ h) :
    lookupRec (processPostWith cfg now st found url o g).1 h = lookupRec st h ∧
    Event.admission h ∉ (processPostWith cfg now st found url o g).2.2 ∧
    Event.screenCall h ∉ (processPostWith cfg now st found url o g).2.2 ∧
    Event.sendCall h ∉ (processPostWith cfg now st found url o g).2.2 := by
  have hne' : h ≠ g := Ne.symm hne
  by_cases h1 : ownSkip cfg g
  · simp [processPostWith, h1, hne']
  · by_cases h2 : sentFlag st g
    · simp [processPostWith, h1, h2, hne']
    · by_cases h3 : screeningFlag st g
      · simp [processPostWith, h1, h2, h3, hne']
      · by_cases h4 : g ∈ found
        · simp [processPostWith, h1, h2, h3, h4, hne']
        · by_cases h5 : o.profileNewPageOk
          · by_cases h6 : o.profileGotoOk
            · by_cases h7 : o.screenRaise
              · simp [processPostWith, h1, h2, h3, h4, h5, h6, h7, hne']
              · by_cases h8 : (screenProfileFn cfg.screeningEnabled
                    cfg.openaiKey o.screenResp).passes
                · rcases hsend : o.send with _ | success
                  · simp [processPostWith, h1, h2, h3, h4, h5, h6, h7, h8,
                      hsend, hne']
                  · simp [processPostWith, h1, h2, h3, h4, h5, h6, h7, h8,
                      hsend, hne', lookupRec_setRec_ne st g h _ hne]
                · simp [processPostWith, h1, h2, h3, h4, h5, h6, h7, h8,
                    hne', lookupRec_setRec_ne st g h _ hne]
            · simp [processPostWith, h1, h2, h3, h4, h5, h6, hne']
          · simp [processPostWith, h1, h2, h3, h4, h5, hne']

/-- A handle in terminal status is invisible to a post iteration: its
record is untouched and it is never admitted, screened or messaged. -/
theorem processPost_terminal_inv (cfg : Config) (now : Nat) (st : StateMap)
    (found : List String) (url : String) (o : PostOutcome) (h : String)
    (hterm : terminalFor st h = true) :
    lookupRec (processPost cfg now st found url o).1 h = lookupRec st h ∧
    Event.admission h ∉ (processPost cfg now st found url o).2.2 ∧
    Event.screenCall h ∉ (processPost cfg now st found url o).2.2 ∧
    Event.sendCall h ∉ (processPost cfg now st found url o).2.2 := by
  by_cases hn : o.newPageOk
  · by_cases hg : o.gotoOk
    · rcases hext : extractHandleFromPost o.page with _ | g
      · simp [processPost, hn, hg, hext]
      · by_cases heq : g = h
        · subst heq
          simp [processPost, hn, hg, hext,
            processPostWith_terminal cfg now st found url o g hterm]
        · have h2 := processPostWith_other cfg now st found url o g h heq
          simpa [processPost, hn, hg, hext] using h2
    · simp [processPost, hn, hg]
  · simp [processPost, hn]

/-- Terminal records survive a whole post loop untouched, and the loop
never admits, screens or messages them. -/
theorem processPosts_terminal_inv (cfg : Config) (now : Nat)
    (posts : List (String × PostOutcome)) (st : StateMap)
    (found : List String) (h : String) (hterm : terminalFor st h = true) :
    lookupRec (processPosts cfg now posts st found).1 h = lookupRec st h ∧
    Event.admission h ∉ (processPosts cfg now posts st found).2.2 ∧
    Event.screenCall h ∉ (processPosts cfg now posts st found).2.2 ∧
    Event.sendCall h ∉ (processPosts cfg now posts st found).2.2 := by
  induction posts generalizing st found with
  | nil => simp [processPosts]
  | cons p rest ih =>
      obtain ⟨hlk, ha, hs, hd⟩ :=
        processPost_terminal_inv cfg now st found p.1 p.2 h hterm
      have hterm2 : terminalFor (processPost cfg now st found p.1 p.2).1 h
          = true := by
        rw [terminalFor_congr st (processPost cfg now st found p.1 p.2).1 h
          hlk]; exact hterm
      obtain ⟨hlk2, ha2, hs2, hd2⟩ :=
        ih (processPost cfg now st found p.1 p.2).1
          (processPost cfg now st found p.1 p.2).2.1 hterm2
      refine ⟨by rw [processPosts]; rw [hlk2, hlk], ?_, ?_, ?_⟩ <;>
        · rw [processPosts]
          simp only [List.mem_append, not_or]
          exact ⟨by assumption, by assumption⟩
theorem runSendStep_terminal_inv (cfg : Config) (now : Nat) (st : StateMap)
    (c : CreatorC) (o : RunSendOutcome) (h : String)
    (hterm : terminalFor st h = true) :
    lookupRec (runSendStep cfg now st c o).1 h = lookupRec st h ∧
    Event.screenCall h ∉ (runSendStep cfg now st c o).2.1 ∧
    Event.sendCall h ∉ (runSendStep cfg now st c o).2.1 := by
  by_cases heq : c.handle = h
  · unfold terminalFor at hterm
    rcases Bool.or_eq_true_iff.mp hterm with hs | hs
    · simp [runSendStep, heq, hs]
    · by_cases hsent : sentFlag st c.handle <;>
        simp [runSendStep, heq, hs, hsent]
  · have hne' : h ≠ c.handle := Ne.symm heq
    by_cases h1 : sentFlag st c.handle
    · simp [runSendStep, h1, hne']
    · by_cases h2 : screeningFlag st c.handle
      · simp [runSendStep, h1, h2, hne']
      · rcases o with _ | _ | ⟨resp, send⟩
        · simp [runSendStep, h1, h2, hne']
        · simp [runSendStep, h1, h2, hne']
        · by_cases h3 : (screenProfileFn cfg.screeningEnabled
              cfg.openaiKey resp).passes
          · rcases send with _ | success
            · simp [runSendStep, h1, h2, h3, hne']
            · simp [runSendStep, h1, h2, h3, hne',
                lookupRec_setRec_ne st c.handle h _ heq]
          · simp [runSendStep, h1, h2, h3, hne',
              lookupRec_setRec_ne st c.handle h _ heq]

theorem runSendLoop_terminal_inv (cfg : Config) (now : Nat)
    (creators : List (CreatorC × RunSendOutcome)) (st : StateMap)
    (h : String) (hterm : terminalFor st h = true) :
    lookupRec (runSendLoop cfg now creators st).1 h = lookupRec st h ∧
    Event.screenCall h ∉ (runSendLoop cfg now creators st).2 ∧
    Event.sendCall h ∉ (runSendLoop cfg now creators st).2 := by
  induction creators generalizing st with
  | nil => simp [runSendLoop]
  | cons p rest ih =>
      obtain ⟨hlk, hsc, hsd⟩ :=
        runSendStep_terminal_inv cfg now st p.1 p.2 h hterm
      have hterm2 : terminalFor (runSendStep cfg now st p.1 p.2).1 h = true := by
        rw [terminalFor_congr st (runSendStep cfg now st p.1 p.2).1 h hlk]
        exact hterm
      obtain ⟨hlk2, hsc2, hsd2⟩ := ih (runSendStep cfg now st p.1 p.2).1 hterm2
      by_cases hab : (runSendStep cfg now st p.1 p.2).2.2
      · refine ⟨?_, ?_, ?_⟩ <;> simp [runSendLoop, hab, hlk, hsc, hsd]
      · refine ⟨?_, ?_, ?_⟩ <;>
          simp [runSendLoop, hab, hlk, hlk2, hsc, hsd, hsc2, hsd2]

theorem igSearchStep_terminal_inv (cfg : Config) (now : Nat) (st : StateMap)
    (g : String) (o : IGOutcome) (h : String)
    (hterm : terminalFor st h = true) :
    lookupRec (igSearchStep cfg now st g o).1 h = lookupRec st h ∧
    Event.screenCall h ∉ (igSearchStep cfg now st g o).2.1 ∧
    Event.sendCall h ∉ (igSearchStep cfg now st g o).2.1 := by
  by_cases heq : g = h
  · subst heq
    unfold terminalFor at hterm
    by_cases ho : ownSkip cfg g
    · simp [igSearchStep, ho]
    · rcases Bool.or_eq_true_iff.mp hterm with hs | hs
      · simp [igSearchStep, ho, hs]
      · by_cases hsent : sentFlag st g <;> simp [igSearchStep, ho, hs, hsent]
  · have hne' : h ≠ g := Ne.symm heq
    by_cases h0 : ownSkip cfg g
    · simp [igSearchStep, h0, hne']
    · by_cases h1 : sentFlag st g
      · simp [igSearchStep, h0, h1, hne']
      · by_cases h2 : screeningFlag st g
        · simp [igSearchStep, h0, h1, h2, hne']
        · rcases o with _ | _ | _ | ⟨resp, send⟩
          · simp [igSearchStep, h0, h1, h2, hne']
          · simp [igSearchStep, h0, h1, h2, hne']
          · simp [igSearchStep, h0, h1, h2, hne']
          · by_cases h3 : (screenProfileFn cfg.screeningEnabled
                cfg.openaiKey resp).passes
            · rcases send with _ | success
              · simp [igSearchStep, h0, h1, h2, h3, hne']
              · simp [igSearchStep, h0, h1, h2, h3, hne',
                  lookupRec_setRec_ne st g h _ heq]
            · simp [igSearchStep, h0, h1, h2, h3, hne',
                lookupRec_setRec_ne st g h _ heq]

theorem igSearchLoop_terminal_inv (cfg : Config) (now : Nat)
    (handles : List (String × IGOutcome)) (st : StateMap)
    (h : String) (hterm : terminalFor st h = true) :
    lookupRec (igSearchLoop cfg now handles st).1 h = lookupRec st h ∧
    Event.screenCall h ∉ (igSearchLoop cfg now handles st).2 ∧
    Event.sendCall h ∉ (igSearchLoop cfg now handles st).2 := by
  induction handles generalizing st with
  | nil => simp [igSearchLoop]
  | cons p rest ih =>
      obtain ⟨hlk, hsc, hsd⟩ :=
        igSearchStep_terminal_inv cfg now st p.1 p.2 h hterm
      have hterm2 : terminalFor (igSearchStep cfg now st p.1 p.2).1 h
          = true := by
        rw [terminalFor_congr st (igSearchStep cfg now st p.1 p.2).1 h hlk]
        exact hterm
      obtain ⟨hlk2, hsc2, hsd2⟩ := ih (igSearchStep cfg now st p.1 p.2).1 hterm2
      by_cases hab : (igSearchStep cfg now st p.1 p.2).2.2
      · refine ⟨?_, ?_, ?_⟩ <;> simp [igSearchLoop, hab, hlk, hsc, hsd]
      · refine ⟨?_, ?_, ?_⟩ <;>
          simp [igSearchLoop, hab, hlk, hlk2, hsc, hsd, hsc2, hsd2]
-- ── Follow-up sweep lemmas ──────────────────────────────────────────────────

/-- `state[h]?.followedUp` as a boolean. -/
def fuFlag (st : StateMap) (h : String) : Bool :=
  match lookupRec st h with
  | some r => r.followedUp
  | none => false

theorem fuFlag_congr (st st' : StateMap) (h : String)
    (heq : lookupRec st' h = lookupRec st h) : fuFlag st' h = fuFlag st h := by
  unfold fuFlag; rw [heq]

theorem processFollowupCreator_other (now : Nat) (st : StateMap)
    (g h : String) (o : FollowupOutcome) (hne : g ≠ h) :
    lookupRec (processFollowupCreator now st g o).1 h = lookupRec st h ∧
    Event.followupSend h ∉ (processFollowupCreator now st g o).2.1 := by
  have hne' : h ≠ g := Ne.symm hne
  rcases hlk : lookupRec st g with _ | s
  · simp [processFollowupCreator, hlk]
  · by_cases h1 : s.sent
    · by_cases h2 : o.navRaise
      · simp [processFollowupCreator, hlk, h1, h2]
      · by_cases h3 : (checkReply o.reply).replied
        · simp [processFollowupCreator, hlk, h1, h2, h3, hne',
            lookupRec_setRec_ne st g h _ hne]
        · by_cases h4 : (checkReply o.reply).error
          · simp [processFollowupCreator, hlk, h1, h2, h3, h4, hne']
          · by_cases h5 : s.followedUp
            · simp [processFollowupCreator, hlk, h1, h2, h3, h4, h5, hne']
            · by_cases h6 : daysLt3 now s.sentAt
              · simp [processFollowupCreator, hlk, h1, h2, h3, h4, h5, h6,
                  hne']
              · by_cases h7 : o.inputOk
                · simp [processFollowupCreator, hlk, h1, h2, h3, h4, h5, h6,
                    h7, hne', lookupRec_setRec_ne st g h _ hne]
                · simp [processFollowupCreator, hlk, h1, h2, h3, h4, h5, h6,
                    h7, hne']
    · simp [processFollowupCreator, hlk, h1]

theorem processFollowupCreator_unsent (now : Nat) (st : StateMap)
    (h : String) (o : FollowupOutcome) (hus : sentFlag st h = false) :
    processFollowupCreator now st h o = (st, [], false) := by
  rcases hlk : lookupRec st h with _ | s
  · simp [processFollowupCreator, hlk]
  · have h1 : s.sent = false := by
      unfold sentFlag at hus; rw [hlk] at hus; exact hus
    simp [processFollowupCreator, hlk, h1]

/-- Shape of one follow-up iteration's trace: empty, a bare save, or one
follow-up send (which leaves the handle's `followedUp` flag set). -/
theorem processFollowupCreator_evs (now : Nat) (st : StateMap)
    (g : String) (o : FollowupOutcome) :
    (processFollowupCreator now st g o).2.1 = [] ∨
    (processFollowupCreator now st g o).2.1 = [.saveSt] ∨
    ((processFollowupCreator now st g o).2.1 = [.followupSend g, .saveSt] ∧
     fuFlag (processFollowupCreator now st g o).1 g = true) := by
  rcases hlk : lookupRec st g with _ | s
  · simp [processFollowupCreator, hlk]
  · by_cases h1 : s.sent
    · by_cases h2 : o.navRaise
      · simp [processFollowupCreator, hlk, h1, h2]
      · by_cases h3 : (checkReply o.reply).replied
        · simp [processFollowupCreator, hlk, h1, h2, h3]
        · by_cases h4 : (checkReply o.reply).error
          · simp [processFollowupCreator, hlk, h1, h2, h3, h4]
          · by_cases h5 : s.followedUp
            · simp [processFollowupCreator, hlk, h1, h2, h3, h4, h5]
            · by_cases h6 : daysLt3 now s.sentAt
              · simp [processFollowupCreator, hlk, h1, h2, h3, h4, h5, h6]
              · by_cases h7 : o.inputOk
                · refine Or.inr (Or.inr ⟨?_, ?_⟩) <;>
                    simp [processFollowupCreator, hlk, h1, h2, h3, h4, h5,
                      h6, h7, fuFlag, lookupRec_setRec_self]
                · simp [processFollowupCreator, hlk, h1, h2, h3, h4, h5,
                    h6, h7]
    · simp [processFollowupCreator, hlk, h1]

/-- A record already followed up is never followed up again by a single
iteration, and its `followedUp` flag stays set. -/
theorem processFollowupCreator_fu (now : Nat) (st : StateMap)
    (g h : String) (o : FollowupOutcome) (hfu : fuFlag st h = true) :
    fuFlag (processFollowupCreator now st g o).1 h = true ∧
    Event.followupSend h ∉ (processFollowupCreator now st g o).2.1 := by
  by_cases heq : g = h
  · subst heq
    rcases hlk : lookupRec st g with _ | s
    · unfold fuFlag at hfu; rw [hlk] at hfu; exact absurd hfu (by simp)
    · have h5 : s.followedUp = true := by
        unfold fuFlag at hfu; rw [hlk] at hfu; exact hfu
      by_cases h1 : s.sent
      · by_cases h2 : o.navRaise
        · simp [processFollowupCreator, hlk, h1, h2, hfu]
        · by_cases h3 : (checkReply o.reply).replied
          · constructor
            · have hres : (processFollowupCreator now st g o).1 =
                  setRec st g { s with replied := true } := by
                simp [processFollowupCreator, hlk, h1, h2, h3]
              rw [hres]
              unfold fuFlag
              rw [lookupRec_setRec_self]
              exact h5
            · simp [processFollowupCreator, hlk, h1, h2, h3]
          · simp [processFollowupCreator, hlk, h1, h2, h3, h5, hfu]
      · simp [processFollowupCreator, hlk, h1, hfu]
  · obtain ⟨hlk, hns⟩ := processFollowupCreator_other now st g h o heq
    exact ⟨by rw [fuFlag_congr st _ h hlk]; exact hfu, hns⟩
/-- Once `followedUp` is set, the whole sweep never sends another
follow-up to that handle and the flag stays set. -/
theorem runFollowupLoop_fu (now : Nat)
    (creators : List (String × FollowupOutcome)) (st : StateMap)
    (h : String) (hfu : fuFlag st h = true) :
    fuFlag (runFollowupLoop now creators st).1 h = true ∧
    Event.followupSend h ∉ (runFollowupLoop now creators st).2 := by
  induction creators generalizing st with
  | nil => simpa [runFollowupLoop] using hfu
  | cons p rest ih =>
      obtain ⟨hfu2, hns⟩ := processFollowupCreator_fu now st p.1 h p.2 hfu
      by_cases hab : (processFollowupCreator now st p.1 p.2).2.2
      · refine ⟨?_, ?_⟩ <;> simp [runFollowupLoop, hab, hfu2, hns]
      · obtain ⟨hfu3, hns3⟩ := ih (processFollowupCreator now st p.1 p.2).1 hfu2
        refine ⟨?_, ?_⟩ <;> simp [runFollowupLoop, hab, hfu3, hns, hns3]

/-- The sweep sends at most one follow-up per handle, whatever the state
and outcomes. -/
theorem runFollowupLoop_send_once (now : Nat)
    (creators : List (String × FollowupOutcome)) (st : StateMap)
    (h : String) :
    ((runFollowupLoop now creators st).2.count (Event.followupSend h)) ≤ 1 := by
  induction creators generalizing st with
  | nil => simp [runFollowupLoop]
  | cons p rest ih =>
      rcases processFollowupCreator_evs now st p.1 p.2 with he | he | ⟨he, hfu⟩
      · by_cases hab : (processFollowupCreator now st p.1 p.2).2.2
        · simp [runFollowupLoop, hab, he]
        · simpa [runFollowupLoop, hab, he] using
            ih (processFollowupCreator now st p.1 p.2).1
      · by_cases hab : (processFollowupCreator now st p.1 p.2).2.2
        · simp [runFollowupLoop, hab, he, List.count_cons]
        · simpa [runFollowupLoop, hab, he, List.count_cons] using
            ih (processFollowupCreator now st p.1 p.2).1
      · by_cases heq : p.1 = h
        · subst heq
          have hfu2 : fuFlag (processFollowupCreator now st p.1 p.2).1 p.1
              = true := hfu
          by_cases hab : (processFollowupCreator now st p.1 p.2).2.2
          · simp [runFollowupLoop, hab, he, List.count_cons]
          · obtain ⟨_, hns⟩ :=
              runFollowupLoop_fu now rest
                (processFollowupCreator now st p.1 p.2).1 p.1 hfu2
            rw [runFollowupLoop]
            simp only [hab, if_false, Bool.false_eq_true]
            rw [List.count_append, he]
            rw [List.count_eq_zero.mpr hns]
            simp [List.count_cons]
        · by_cases hab : (processFollowupCreator now st p.1 p.2).2.2
          · simp [runFollowupLoop, hab, he, List.count_cons, heq]
          · simpa [runFollowupLoop, hab, he, List.count_cons, heq] using
              ih (processFollowupCreator now st p.1 p.2).1
/-- An unsent record is completely ignored by a follow-up iteration. -/
theorem runFollowupLoop_unsent (now : Nat)
    (creators : List (String × FollowupOutcome)) (st : StateMap)
    (h : String) (hus : sentFlag st h = false) :
    lookupRec (runFollowupLoop now creators st).1 h = lookupRec st h := by
  induction creators generalizing st with
  | nil => simp [runFollowupLoop]
  | cons p rest ih =>
      by_cases heq : p.1 = h
      · subst heq
        have hstep := processFollowupCreator_unsent now st p.1 p.2 hus
        by_cases hab : (processFollowupCreator now st p.1 p.2).2.2
        · rw [hstep] at hab; simp at hab
        · rw [runFollowupLoop]
          simp only [hab, if_false, Bool.false_eq_true, hstep]
          exact ih st hus
      · obtain ⟨hlk, _⟩ := processFollowupCreator_other now st p.1 h p.2 heq
        have hus2 : sentFlag (processFollowupCreator now st p.1 p.2).1 h
            = false := by
          unfold sentFlag; rw [hlk]; unfold sentFlag at hus; exact hus
        by_cases hab : (processFollowupCreator now st p.1 p.2).2.2
        · simp [runFollowupLoop, hab, hlk]
        · rw [runFollowupLoop]
          simp only [hab, if_false, Bool.false_eq_true]
          rw [ih (processFollowupCreator now st p.1 p.2).1 hus2, hlk]

/-- A sent record inside the 3-day window whose thread shows no reply is
untouched by one iteration over its own handle. -/
theorem processFollowupCreator_wait (now : Nat) (st : StateMap)
    (h : String) (o : FollowupOutcome) (r : Rec)
    (hlk : lookupRec st h = some r) (hs : r.sent = true)
    (hnr : (checkReply o.reply).replied = false)
    (hdl : daysLt3 now r.sentAt = true) :
    (processFollowupCreator now st h o).1 = st ∧
    Event.followupSend h ∉ (processFollowupCreator now st h o).2.1 := by
  by_cases h2 : o.navRaise
  · simp [processFollowupCreator, hlk, hs, h2]
  · by_cases h4 : (checkReply o.reply).error
    · simp [processFollowupCreator, hlk, hs, h2, hnr, h4]
    · by_cases h5 : r.followedUp
      · simp [processFollowupCreator, hlk, hs, h2, hnr, h4, h5]
      · simp [processFollowupCreator, hlk, hs, h2, hnr, h4, h5, hdl]

/-- C5 part (a) at sweep level: such a record is untouched by the whole
sweep, provided no iteration over the handle reports a reply. -/
theorem runFollowupLoop_untouched (now : Nat)
    (creators : List (String × FollowupOutcome)) (st : StateMap)
    (h : String) (r : Rec)
    (hlk : lookupRec st h = some r) (hs : r.sent = true)
    (hdl : daysLt3 now r.sentAt = true)
    (hnr : ∀ p ∈ creators, p.1 = h → (checkReply p.2.reply).replied = false) :
    lookupRec (runFollowupLoop now creators st).1 h = some r := by
  induction creators generalizing st with
  | nil => simpa [runFollowupLoop] using hlk
  | cons p rest ih =>
      by_cases heq : p.1 = h
      · subst heq
        obtain ⟨hst, _⟩ := processFollowupCreator_wait now st p.1 p.2 r hlk hs
          (hnr p (by simp) rfl) hdl
        by_cases hab : (processFollowupCreator now st p.1 p.2).2.2
        · rw [runFollowupLoop]
          simp only [hab, if_true]
          rw [hst]
          exact hlk
        · rw [runFollowupLoop]
          simp only [hab, if_false, Bool.false_eq_true, hst]
          exact ih st hlk (fun q hq => hnr q (by simp [hq]))
      · obtain ⟨hlk2, _⟩ := processFollowupCreator_other now st p.1 h p.2 heq
        by_cases hab : (processFollowupCreator now st p.1 p.2).2.2
        · rw [runFollowupLoop]
          simp only [hab, if_true]
          rw [hlk2]
          exact hlk
        · rw [runFollowupLoop]
          simp only [hab, if_false, Bool.false_eq_true]
          exact ih (processFollowupCreator now st p.1 p.2).1
            (by rw [hlk2]; exact hlk) (fun q hq => hnr q (by simp [hq]))
/-- Case analysis of one iteration over its own, not yet followed-up
handle: the state is unchanged, only `replied` is set, or the follow-up
flip happens and then only outside the 3-day window. -/
theorem processFollowupCreator_self_cases (now : Nat) (st : StateMap)
    (h : String) (o : FollowupOutcome) (r : Rec)
    (hlk : lookupRec st h = some r) (hnf : r.followedUp = false) :
    (processFollowupCreator now st h o).1 = st ∨
    (processFollowupCreator now st h o).1 =
      setRec st h { r with replied := true } ∨
    (daysLt3 now r.sentAt = false ∧
     (processFollowupCreator now st h o).1 =
       setRec st h { r with followedUp := true, followedUpAt := some now }) := by
  by_cases h1 : r.sent
  · by_cases h2 : o.navRaise
    · simp [processFollowupCreator, hlk, h1, h2]
    · by_cases h3 : (checkReply o.reply).replied
      · simp [processFollowupCreator, hlk, h1, h2, h3]
      · by_cases h4 : (checkReply o.reply).error
        · simp [processFollowupCreator, hlk, h1, h2, h3, h4]
        · by_cases h6 : daysLt3 now r.sentAt
          · simp [processFollowupCreator, hlk, h1, h2, h3, h4, hnf, h6]
          · by_cases h7 : o.inputOk
            · refine Or.inr (Or.inr ⟨by simpa using h6, ?_⟩)
              simp [processFollowupCreator, hlk, h1, h2, h3, h4, hnf, h6, h7]
            · simp [processFollowupCreator, hlk, h1, h2, h3, h4, hnf, h6, h7]
  · simp [processFollowupCreator, hlk, h1]

/-- C9, amended part: the `followedUp` flag can only be acquired by the
sweep outside the 3-day window. -/
theorem runFollowupLoop_fu_gate (now : Nat)
    (creators : List (String × FollowupOutcome)) (st : StateMap)
    (h : String) (r : Rec)
    (hlk : lookupRec st h = some r) (hnf : r.followedUp = false)
    (hfu : fuFlag (runFollowupLoop now creators st).1 h = true) :
    daysLt3 now r.sentAt = false := by
  induction creators generalizing st r with
  | nil =>
      rw [runFollowupLoop] at hfu
      unfold fuFlag at hfu
      rw [hlk] at hfu
      simp [hnf] at hfu
  | cons p rest ih =>
      by_cases heq : p.1 = h
      · subst heq
        rcases processFollowupCreator_self_cases now st p.1 p.2 r hlk hnf with
          hst | hst | ⟨hdl, hst⟩
        · by_cases hab : (processFollowupCreator now st p.1 p.2).2.2
          · rw [runFollowupLoop] at hfu
            simp only [hab, if_true] at hfu
            rw [hst] at hfu
            unfold fuFlag at hfu
            rw [hlk] at hfu
            simp [hnf] at hfu
          · rw [runFollowupLoop] at hfu
            simp only [hab, if_false, Bool.false_eq_true] at hfu
            rw [hst] at hfu
            exact ih st r hlk hnf hfu
        · have hlk2 : lookupRec (processFollowupCreator now st p.1 p.2).1 p.1
              = some { r with replied := true } := by
            rw [hst]; exact lookupRec_setRec_self st p.1 _
          by_cases hab : (processFollowupCreator now st p.1 p.2).2.2
          · rw [runFollowupLoop] at hfu
            simp only [hab, if_true] at hfu
            unfold fuFlag at hfu
            rw [hlk2] at hfu
            simp [hnf] at hfu
          · rw [runFollowupLoop] at hfu
            simp only [hab, if_false, Bool.false_eq_true] at hfu
            have := ih (processFollowupCreator now st p.1 p.2).1
              { r with replied := true } hlk2 (by simpa using hnf) hfu
            simpa using this
        · exact hdl
      · obtain ⟨hlk2, _⟩ := processFollowupCreator_other now st p.1 h p.2 heq
        by_cases hab : (processFollowupCreator now st p.1 p.2).2.2
        · rw [runFollowupLoop] at hfu
          simp only [hab, if_true] at hfu
          unfold fuFlag at hfu
          rw [hlk2, hlk] at hfu
          simp [hnf] at hfu
        · rw [runFollowupLoop] at hfu
          simp only [hab, if_false, Bool.false_eq_true] at hfu
          exact ih (processFollowupCreator now st p.1 p.2).1 r
            (by rw [hlk2]; exact hlk) hnf hfu
-- ── Tab balance ─────────────────────────────────────────────────────────────

theorem processPostWith_tab_balance (cfg : Config) (now : Nat)
    (st : StateMap) (found : List String) (url : String) (o : PostOutcome)
    (g : String) :
    ((processPostWith cfg now st found url o g).2.2.count (Event.openTab 2) =
     (processPostWith cfg now st found url o g).2.2.count (Event.closeTab 2)) ∧
    ((processPostWith cfg now st found url o g).2.2.count (Event.openTab 3) =
     (processPostWith cfg now st found url o g).2.2.count (Event.closeTab 3)) := by
  by_cases h1 : ownSkip cfg g
  · simp [processPostWith, h1, List.count_cons]
  · by_cases h2 : sentFlag st g
    · simp [processPostWith, h1, h2, List.count_cons]
    · by_cases h3 : screeningFlag st g
      · simp [processPostWith, h1, h2, h3, List.count_cons]
      · by_cases h4 : g ∈ found
        · simp [processPostWith, h1, h2, h3, h4, List.count_cons]
        · by_cases h5 : o.profileNewPageOk
          · by_cases h6 : o.profileGotoOk
            · by_cases h7 : o.screenRaise
              · simp [processPostWith, h1, h2, h3, h4, h5, h6, h7,
                  List.count_cons]
              · by_cases h8 : (screenProfileFn cfg.screeningEnabled
                    cfg.openaiKey o.screenResp).passes
                · rcases hsend : o.send with _ | success
                  · simp [processPostWith, h1, h2, h3, h4, h5, h6, h7, h8,
                      hsend, List.count_cons]
                  · simp [processPostWith, h1, h2, h3, h4, h5, h6, h7, h8,
                      hsend, List.count_cons]
                · simp [processPostWith, h1, h2, h3, h4, h5, h6, h7, h8,
                    List.count_cons]
            · simp [processPostWith, h1, h2, h3, h4, h5, h6, List.count_cons]
          · simp [processPostWith, h1, h2, h3, h4, h5, List.count_cons]

theorem processPost_tab_balance (cfg : Config) (now : Nat) (st : StateMap)
    (found : List String) (url : String) (o : PostOutcome) :
    ((processPost cfg now st found url o).2.2.count (Event.openTab 2) =
     (processPost cfg now st found url o).2.2.count (Event.closeTab 2)) ∧
    ((processPost cfg now st found url o).2.2.count (Event.openTab 3) =
     (processPost cfg now st found url o).2.2.count (Event.closeTab 3)) := by
  by_cases hn : o.newPageOk
  · by_cases hg : o.gotoOk
    · rcases hext : extractHandleFromPost o.page with _ | g
      · simp [processPost, hn, hg, hext, List.count_cons]
      · have := processPostWith_tab_balance cfg now st found url o g
        simpa [processPost, hn, hg, hext] using this
    · simp [processPost, hn, hg, List.count_cons]
  · simp [processPost, hn]

theorem processPosts_tab_balance (cfg : Config) (now : Nat)
    (posts : List (String × PostOutcome)) (st : StateMap)
    (found : List String) :
    ((processPosts cfg now posts st found).2.2.count (Event.openTab 2) =
     (processPosts cfg now posts st found).2.2.count (Event.closeTab 2)) ∧
    ((processPosts cfg now posts st found).2.2.count (Event.openTab 3) =
     (processPosts cfg now posts st found).2.2.count (Event.closeTab 3)) := by
  induction posts generalizing st found with
  | nil => simp [processPosts]
  | cons p rest ih =>
      obtain ⟨hp2, hp3⟩ := processPost_tab_balance cfg now st found p.1 p.2
      obtain ⟨hr2, hr3⟩ := ih (processPost cfg now st found p.1 p.2).1
        (processPost cfg now st found p.1 p.2).2.1
      rw [processPosts]
      constructor <;> simp only [List.count_append] <;> omega
-- ── Denylist lemmas for the extraction strategies ───────────────────────────

theorem strat1A_not_skipped (links : List (String × Option String))
    (h : String) (hk : strat1A links = some h) :
    skipPages.contains h = false := by
  induction links with
  | nil => simp [strat1A] at hk
  | cons l rest ih =>
      rw [strat1A] at hk
      rcases hm : matchProfileHref30 l.1 with _ | m
      · rw [hm] at hk; exact ih hk
      · rw [hm] at hk
        dsimp only at hk
        by_cases hs : skipPages.contains m
        · rw [if_pos hs] at hk; exact ih hk
        · rw [if_neg hs] at hk
          rcases hsp : l.2 with _ | s
          · rw [hsp] at hk; exact ih hk
          · rw [hsp] at hk
            dsimp only at hk
            by_cases ht : trimChars s.data = m.data
            · rw [if_pos ht] at hk
              obtain rfl : m = h := by injection hk
              simpa using hs
            · rw [if_neg ht] at hk; exact ih hk

theorem strat1B_not_skipped (links : List (String × Option String))
    (h : String) (hk : strat1B links = some h) :
    skipPages.contains h = false := by
  induction links with
  | nil => simp [strat1B] at hk
  | cons l rest ih =>
      rw [strat1B] at hk
      rcases hm : matchProfileHref30 l.1 with _ | m
      · rw [hm] at hk; exact ih hk
      · rw [hm] at hk
        dsimp only at hk
        by_cases hs : skipPages.contains m
        · rw [if_pos hs] at hk; exact ih hk
        · rw [if_neg hs] at hk
          obtain rfl : m = h := by injection hk
          simpa using hs

theorem strat1_not_skipped (links : List (String × Option String))
    (h : String) (hk : strat1 links = some h) :
    skipPages.contains h = false := by
  rw [strat1] at hk
  rcases ha : strat1A links with _ | m
  · rw [ha] at hk; exact strat1B_not_skipped links h hk
  · rw [ha] at hk
    obtain rfl : m = h := by injection hk
    exact strat1A_not_skipped links m ha

theorem extractCreatorHandle_not_skipped (hrefs : List (Option String))
    (h : String) (hk : extractCreatorHandle hrefs = some h) :
    skipDialog.contains h = false := by
  induction hrefs with
  | nil => simp [extractCreatorHandle] at hk
  | cons l rest ih =>
      rcases l with _ | href
      · rw [extractCreatorHandle] at hk; exact ih hk
      · rw [extractCreatorHandle] at hk
        rcases hm : matchProfileHrefAny href with _ | m
        · rw [hm] at hk; exact ih hk
        · rw [hm] at hk
          dsimp only at hk
          by_cases hs : skipDialog.contains m
          · rw [if_pos hs] at hk; exact ih hk
          · rw [if_neg hs] at hk
            obtain rfl : m = h := by injection hk
            simpa using hs

-- ── Search expansion bounds ─────────────────────────────────────────────────

theorem collectSuggestionUrls_le (links : List (Option String)) :
    (collectSuggestionUrls links).length ≤ 5 := by
  unfold collectSuggestionUrls
  calc (((links.take 5).filterMap id).map fullUrl).length
      = ((links.take 5).filterMap id).length := List.length_map _ _
    _ ≤ (links.take 5).length := List.length_filterMap_le _ _
    _ ≤ 5 := by simp [List.length_take_le]

theorem collectReelUrls_step_le (acc : List String) (ls : List (Option String)) :
    (ls.foldl (fun acc l =>
        match l with
        | none => acc
        | some href =>
            let u := fullUrl href
            if acc.contains u then acc else acc ++ [u]) acc).length ≤
      acc.length + ls.length := by
  induction ls generalizing acc with
  | nil => simp
  | cons l rest ih =>
      rcases l with _ | href
      · simp only [List.foldl_cons, List.length_cons]
        exact Nat.le_trans (ih acc) (by omega)
      · simp only [List.foldl_cons, List.length_cons]
        by_cases hc : acc.contains (fullUrl href)
        · rw [if_pos hc]
          exact Nat.le_trans (ih acc) (by omega)
        · rw [if_neg hc]
          refine Nat.le_trans (ih (acc ++ [fullUrl href])) ?_
          simp only [List.length_append, List.length_cons, List.length_nil]
          omega

theorem collectReelUrls_le (links : List (Option String)) :
    (collectReelUrls links).length ≤ 24 := by
  unfold collectReelUrls
  have h1 := collectReelUrls_step_le [] (links.take 24)
  simp only [List.length_nil, Nat.zero_add] at h1
  have h2 : (links.take 24).length ≤ 24 := by
    simp [List.length_take_le]
  exact Nat.le_trans h1 h2

theorem collectReelUrls_step_nodup (acc : List String)
    (ls : List (Option String)) (hnd : acc.Nodup) :
    (ls.foldl (fun acc l =>
        match l with
        | none => acc
        | some href =>
            let u := fullUrl href
            if acc.contains u then acc else acc ++ [u]) acc).Nodup := by
  induction ls generalizing acc with
  | nil => simpa using hnd
  | cons l rest ih =>
      rcases l with _ | href
      · simp only [List.foldl_cons]
        exact ih acc hnd
      · simp only [List.foldl_cons]
        by_cases hc : acc.contains (fullUrl href)
        · rw [if_pos hc]
          exact ih acc hnd
        · rw [if_neg hc]
          refine ih (acc ++ [fullUrl href]) ?_
          have hnm : fullUrl href ∉ acc := by simpa using hc
          simp [List.nodup_append, hnd, hnm]

theorem collectReelUrls_nodup (links : List (Option String)) :
    (collectReelUrls links).Nodup := by
  unfold collectReelUrls
  exact collectReelUrls_step_nodup [] (links.take 24) (by simp)
-- ── Branch characterizations of a post iteration ────────────────────────────

/-- The screening-rejection branch of a post iteration: the screened-out
record is written and saved before the tabs close and the iteration
ends. -/
theorem processPost_screening_eq (cfg : Config) (now : Nat) (st : StateMap)
    (found : List String) (url : String) (o : PostOutcome) (h : String)
    (ha : o.newPageOk = true) (hb : o.gotoOk = true)
    (hc : extractHandleFromPost o.page = some h)
    (hd : ownSkip cfg h = false) (he : sentFlag st h = false)
    (hf : screeningFlag st h = false) (hg : found.contains h = false)
    (hh : o.profileNewPageOk = true) (hi : o.profileGotoOk = true)
    (hj : o.screenRaise = false)
    (hk : (screenProfileFn cfg.screeningEnabled cfg.openaiKey
      o.screenResp).passes = false) :
    processPost cfg now st found url o =
      (setRec st h (screenedOutRec now url (some "ig")), found,
       [.openTab 2, .admission h, .openTab 3, .screenCall h, .saveSt,
        .closeTab 3, .closeTab 2]) := by
  have hmem : h ∉ found := by simpa using hg
  simp [processPost, processPostWith, ha, hb, hc, hd, he, hf, hmem, hh, hi,
    hj, hk]

/-- The successful-dispatch branch of a post iteration. -/
theorem processPost_success_eq (cfg : Config) (now : Nat) (st : StateMap)
    (found : List String) (url : String) (o : PostOutcome) (h : String)
    (ha : o.newPageOk = true) (hb : o.gotoOk = true)
    (hc : extractHandleFromPost o.page = some h)
    (hd : ownSkip cfg h = false) (he : sentFlag st h = false)
    (hf : screeningFlag st h = false) (hg : found.contains h = false)
    (hh : o.profileNewPageOk = true) (hi : o.profileGotoOk = true)
    (hj : o.screenRaise = false)
    (hk : (screenProfileFn cfg.screeningEnabled cfg.openaiKey
      o.screenResp).passes = true)
    (hl : o.send = some true) :
    processPost cfg now st found url o =
      (setRec st h (dispatchRec now true url (some "ig")), found ++ [h],
       [.openTab 2, .admission h, .openTab 3, .screenCall h, .sendCall h,
        .saveSt, .closeTab 3, .closeTab 2]) := by
  have hmem : h ∉ found := by simpa using hg
  simp [processPost, processPostWith, ha, hb, hc, hd, he, hf, hmem, hh, hi,
    hj, hk, hl]

theorem terminalFor_setRec_screening (st : StateMap) (h : String) (now : Nat)
    (url : String) (src : Option String) :
    terminalFor (setRec st h (screenedOutRec now url src)) h = true := by
  unfold terminalFor screeningFlag sentFlag
  rw [lookupRec_setRec_self]
  simp [screenedOutRec]

theorem terminalFor_setRec_sent (st : StateMap) (h : String) (now : Nat)
    (url : String) (src : Option String) :
    terminalFor (setRec st h (dispatchRec now true url src)) h = true := by
  unfold terminalFor screeningFlag sentFlag
  rw [lookupRec_setRec_self]
  simp [dispatchRec]
-- ── Claim theorems ──────────────────────────────────────────────────────────

/-- Claim C1: for every handle whose stored record has `sent == true` at
the start of a run, no `sendMessages` invocation happens for that handle
during the run — in the Instagram-search post loop, the API send loop
(`runSend`), and the `runIGSearch` per-handle loop. -/
theorem c1_sent_never_redispatched (cfg : Config) (now : Nat)
    (st : StateMap) (h : String) (posts : List (String × PostOutcome))
    (found : List String) (creators : List (CreatorC × RunSendOutcome))
    (handles : List (String × IGOutcome))
    (hsent : sentFlag st h = true) :
    Event.sendCall h ∉ (processPosts cfg now posts st found).2.2 ∧
    Event.sendCall h ∉ (runSendLoop cfg now creators st).2 ∧
    Event.sendCall h ∉ (igSearchLoop cfg now handles st).2 := by
  have hterm : terminalFor st h = true := by simp [terminalFor, hsent]
  exact ⟨(processPosts_terminal_inv cfg now posts st found h hterm).2.2.2,
    (runSendLoop_terminal_inv cfg now creators st h hterm).2.2,
    (igSearchLoop_terminal_inv cfg now handles st h hterm).2.2⟩

def wSentRec : Rec :=
  { sent := true, sentAt := some 50, skipped := false, skippedReason := none,
    skippedAt := none, replied := false, followedUp := false,
    followedUpAt := none, reelUrl := "u", source := some "ig" }

def wScreenedRec : Rec :=
  { sent := false, sentAt := none, skipped := true,
    skippedReason := some "screening", skippedAt := some 40, replied := false,
    followedUp := false, followedUpAt := none, reelUrl := "u",
    source := some "ig" }

def wPage : PostPage := ⟨[("/creatorx", some "creatorx")], none, "", ""⟩

def wCfg : Config := ⟨"", true, true⟩

def wPostOutcome : PostOutcome :=
  { newPageOk := true, gotoOk := true, page := wPage,
    profileNewPageOk := true, profileGotoOk := true, screenRaise := false,
    screenResp := ScreenResp.ok (some "MATCH: YES"), send := some true }

theorem c1_sent_never_redispatched_witness :
    Event.sendCall "alice" ∉
      (processPosts wCfg 0 [("u", wPostOutcome)]
        [("alice", wSentRec)] []).2.2 ∧
    Event.sendCall "alice" ∉
      (runSendLoop wCfg 0
        [(⟨"alice", "u"⟩, RunSendOutcome.screened (ScreenResp.ok none)
          (some true))] [("alice", wSentRec)]).2 ∧
    Event.sendCall "alice" ∉
      (igSearchLoop wCfg 0
        [("alice", IGOutcome.screened (ScreenResp.ok none) (some true))]
        [("alice", wSentRec)]).2 :=
  c1_sent_never_redispatched wCfg 0 [("alice", wSentRec)] "alice"
    [("u", wPostOutcome)] []
    [(⟨"alice", "u"⟩, RunSendOutcome.screened (ScreenResp.ok none)
      (some true))]
    [("alice", IGOutcome.screened (ScreenResp.ok none) (some true))]
    (by decide)
/-- Claim C2: a classification rejection writes the screened-out record
(`skipped`, `skippedReason == "screening"`) and saves the store within
the same iteration, before the next candidate; and a handle whose record
says `skippedReason == "screening"` at run start is never screened or
messaged again, in any of the three loops of any later run. -/
theorem c2_screening_rejection_final (cfg : Config) (now : Nat)
    (st : StateMap) (found : List String) (url : String) (o : PostOutcome)
    (h : String)
    (ha : o.newPageOk = true) (hb : o.gotoOk = true)
    (hc : extractHandleFromPost o.page = some h)
    (hd : ownSkip cfg h = false) (he : sentFlag st h = false)
    (hf : screeningFlag st h = false) (hg : found.contains h = false)
    (hh : o.profileNewPageOk = true) (hi : o.profileGotoOk = true)
    (hj : o.screenRaise = false)
    (hk : (screenProfileFn cfg.screeningEnabled cfg.openaiKey
      o.screenResp).passes = false)
    (cfg2 : Config) (now2 : Nat) (st2 : StateMap) (k : String)
    (posts2 : List (String × PostOutcome)) (found2 : List String)
    (creators2 : List (CreatorC × RunSendOutcome))
    (handles2 : List (String × IGOutcome))
    (hscr : screeningFlag st2 k = true) :
    processPost cfg now st found url o =
      (setRec st h (screenedOutRec now url (some "ig")), found,
       [.openTab 2, .admission h, .openTab 3, .screenCall h, .saveSt,
        .closeTab 3, .closeTab 2]) ∧
    lookupRec (processPost cfg now st found url o).1 h =
      some (screenedOutRec now url (some "ig")) ∧
    Event.screenCall k ∉ (processPosts cfg2 now2 posts2 st2 found2).2.2 ∧
    Event.sendCall k ∉ (processPosts cfg2 now2 posts2 st2 found2).2.2 ∧
    Event.screenCall k ∉ (runSendLoop cfg2 now2 creators2 st2).2 ∧
    Event.sendCall k ∉ (runSendLoop cfg2 now2 creators2 st2).2 ∧
    Event.screenCall k ∉ (igSearchLoop cfg2 now2 handles2 st2).2 ∧
    Event.sendCall k ∉ (igSearchLoop cfg2 now2 handles2 st2).2 := by
  have heq := processPost_screening_eq cfg now st found url o h ha hb hc hd
    he hf hg hh hi hj hk
  have hterm : terminalFor st2 k = true := by simp [terminalFor, hscr]
  obtain ⟨_, _, hp1, hp2⟩ :=
    processPosts_terminal_inv cfg2 now2 posts2 st2 found2 k hterm
  obtain ⟨_, hr1, hr2⟩ :=
    runSendLoop_terminal_inv cfg2 now2 creators2 st2 k hterm
  obtain ⟨_, hi1, hi2⟩ :=
    igSearchLoop_terminal_inv cfg2 now2 handles2 st2 k hterm
  refine ⟨heq, ?_, hp1, hp2, hr1, hr2, hi1, hi2⟩
  rw [heq]
  exact lookupRec_setRec_self st h _

def wRejectOutcome : PostOutcome :=
  { newPageOk := true, gotoOk := true, page := wPage,
    profileNewPageOk := true, profileGotoOk := true, screenRaise := false,
    screenResp := ScreenResp.ok none, send := some true }

theorem c2_screening_rejection_final_witness :
    processPost wCfg 7 [] [] "u" wRejectOutcome =
      (setRec [] "creatorx" (screenedOutRec 7 "u" (some "ig")), [],
       [.openTab 2, .admission "creatorx", .openTab 3,
        .screenCall "creatorx", .saveSt, .closeTab 3, .closeTab 2]) ∧
    lookupRec (processPost wCfg 7 [] [] "u" wRejectOutcome).1 "creatorx" =
      some (screenedOutRec 7 "u" (some "ig")) ∧
    Event.screenCall "bob" ∉
      (processPosts wCfg 0 [("u", wPostOutcome)]
        [("bob", wScreenedRec)] []).2.2 ∧
    Event.sendCall "bob" ∉
      (processPosts wCfg 0 [("u", wPostOutcome)]
        [("bob", wScreenedRec)] []).2.2 ∧
    Event.screenCall "bob" ∉
      (runSendLoop wCfg 0
        [(⟨"bob", "u"⟩, RunSendOutcome.screened (ScreenResp.ok none)
          (some true))] [("bob", wScreenedRec)]).2 ∧
    Event.sendCall "bob" ∉
      (runSendLoop wCfg 0
        [(⟨"bob", "u"⟩, RunSendOutcome.screened (ScreenResp.ok none)
          (some true))] [("bob", wScreenedRec)]).2 ∧
    Event.screenCall "bob" ∉
      (igSearchLoop wCfg 0
        [("bob", IGOutcome.screened (ScreenResp.ok none) (some true))]
        [("bob", wScreenedRec)]).2 ∧
    Event.sendCall "bob" ∉
      (igSearchLoop wCfg 0
        [("bob", IGOutcome.screened (ScreenResp.ok none) (some true))]
        [("bob", wScreenedRec)]).2 :=
  c2_screening_rejection_final wCfg 7 [] [] "u" wRejectOutcome "creatorx"
    (by decide) (by decide) (by decide) (by decide) (by decide) (by decide)
    (by decide) (by decide) (by decide) (by decide) (by decide)
    wCfg 0 [("bob", wScreenedRec)] "bob" [("u", wPostOutcome)] []
    [(⟨"bob", "u"⟩, RunSendOutcome.screened (ScreenResp.ok none)
      (some true))]
    [("bob", IGOutcome.screened (ScreenResp.ok none) (some true))]
    (by decide)
def cexOutcomeFail : PostOutcome :=
  { newPageOk := true, gotoOk := true, page := wPage,
    profileNewPageOk := true, profileGotoOk := true, screenRaise := false,
    screenResp := ScreenResp.raise, send := some false }

/-- Claim C3 is false as stated: when the first admission ends in a
dispatch failure (`sendMessages` returns false), the handle is neither
in `found` (pushed only on success) nor terminal in the store
(`skippedReason` is absent), so a second content item re-admits it in
the same run: two admissions and two `sendMessages` calls. -/
theorem c3_counterexample_duplicate_admission :
    ((processPosts wCfg 0 [("u1", cexOutcomeFail), ("u2", cexOutcomeFail)]
        [] []).2.2.count (Event.admission "creatorx") = 2) ∧
    ((processPosts wCfg 0 [("u1", cexOutcomeFail), ("u2", cexOutcomeFail)]
        [] []).2.2.count (Event.sendCall "creatorx") = 2) := by
  constructor <;> rfl

/-- Claim C3, amended: the gate admits a handle at most once per run
when the earlier admission ended in a successful send or a screening
rejection — those outcomes make the store terminal for the handle, and a
terminal handle is never admitted again; after a dispatch failure the
handle stays non-terminal and may be re-admitted from another content
item. -/
theorem c3_admission_after_terminal (cfg : Config) (now : Nat)
    (posts : List (String × PostOutcome)) (st : StateMap)
    (found : List String) (h : String) (hterm : terminalFor st h = true)
    (cfg2 : Config) (now2 : Nat) (st2 : StateMap) (found2 : List String)
    (url2 : String) (o2 : PostOutcome) (k : String)
    (ha : o2.newPageOk = true) (hb : o2.gotoOk = true)
    (hc : extractHandleFromPost o2.page = some k)
    (hd : ownSkip cfg2 k = false) (he : sentFlag st2 k = false)
    (hf : screeningFlag st2 k = false) (hg : found2.contains k = false)
    (hh : o2.profileNewPageOk = true) (hi : o2.profileGotoOk = true)
    (hj : o2.screenRaise = false)
    (hpass : (screenProfileFn cfg2.screeningEnabled cfg2.openaiKey
      o2.screenResp).passes = false ∨
      ((screenProfileFn cfg2.screeningEnabled cfg2.openaiKey
        o2.screenResp).passes = true ∧ o2.send = some true)) :
    Event.admission h ∉ (processPosts cfg now posts st found).2.2 ∧
    terminalFor (processPost cfg2 now2 st2 found2 url2 o2).1 k = true := by
  refine ⟨(processPosts_terminal_inv cfg now posts st found h hterm).2.1, ?_⟩
  rcases hpass with hk | ⟨hk, hl⟩
  · rw [processPost_screening_eq cfg2 now2 st2 found2 url2 o2 k ha hb hc hd
      he hf hg hh hi hj hk]
    exact terminalFor_setRec_screening st2 k now2 url2 (some "ig")
  · rw [processPost_success_eq cfg2 now2 st2 found2 url2 o2 k ha hb hc hd
      he hf hg hh hi hj hk hl]
    exact terminalFor_setRec_sent st2 k now2 url2 (some "ig")

theorem c3_admission_after_terminal_witness :
    Event.admission "alice" ∉
      (processPosts wCfg 0 [("u", wPostOutcome)]
        [("alice", wSentRec)] []).2.2 ∧
    terminalFor (processPost wCfg 7 [] [] "u" wRejectOutcome).1 "creatorx"
      = true :=
  c3_admission_after_terminal wCfg 0 [("u", wPostOutcome)]
    [("alice", wSentRec)] [] "alice" (by decide)
    wCfg 7 [] [] "u" wRejectOutcome "creatorx"
    (by decide) (by decide) (by decide) (by decide) (by decide) (by decide)
    (by decide) (by decide) (by decide) (by decide) (Or.inl (by decide))

/-- Claim C4: every post iteration of the search pipeline opens and
closes Level-2 (post) and Level-3 (profile) tabs in balance, on every
exit path — extraction failure, self/state/in-run skips, screening
rejection, dispatch failure or success, and every modelled throw point —
and hence so does the whole post loop. -/
theorem c4_tab_balance (cfg : Config) (now : Nat) (st : StateMap)
    (found : List String) (url : String) (o : PostOutcome)
    (posts : List (String × PostOutcome)) (st2 : StateMap)
    (found2 : List String) :
    ((processPost cfg now st found url o).2.2.count (Event.openTab 2) =
     (processPost cfg now st found url o).2.2.count (Event.closeTab 2)) ∧
    ((processPost cfg now st found url o).2.2.count (Event.openTab 3) =
     (processPost cfg now st found url o).2.2.count (Event.closeTab 3)) ∧
    ((processPosts cfg now posts st2 found2).2.2.count (Event.openTab 2) =
     (processPosts cfg now posts st2 found2).2.2.count (Event.closeTab 2)) ∧
    ((processPosts cfg now posts st2 found2).2.2.count (Event.openTab 3) =
     (processPosts cfg now posts st2 found2).2.2.count (Event.closeTab 3)) := by
  obtain ⟨h1, h2⟩ := processPost_tab_balance cfg now st found url o
  obtain ⟨h3, h4⟩ := processPosts_tab_balance cfg now posts st2 found2
  exact ⟨h1, h2, h3, h4⟩
/-- Claim C5: a sent record with no reply detected and under 3 days
since `sentAt` is left completely unchanged by the follow-up sweep; the
sweep sends at most one follow-up per handle; and a record already
marked `followedUp` is never followed up again. -/
theorem c5_followup_gating (now : Nat)
    (creators : List (String × FollowupOutcome)) (st : StateMap)
    (h : String) (r : Rec)
    (hlk : lookupRec st h = some r) (hs : r.sent = true)
    (hdl : daysLt3 now r.sentAt = true)
    (hnr : ∀ p ∈ creators, p.1 = h → (checkReply p.2.reply).replied = false)
    (now2 : Nat) (creators2 : List (String × FollowupOutcome))
    (st2 : StateMap) (k : String)
    (now3 : Nat) (creators3 : List (String × FollowupOutcome))
    (st3 : StateMap) (m : String) (r3 : Rec)
    (hlk3 : lookupRec st3 m = some r3) (hfu3 : r3.followedUp = true) :
    lookupRec (runFollowupLoop now creators st).1 h = some r ∧
    (runFollowupLoop now2 creators2 st2).2.count (Event.followupSend k) ≤ 1 ∧
    Event.followupSend m ∉ (runFollowupLoop now3 creators3 st3).2 := by
  refine ⟨runFollowupLoop_untouched now creators st h r hlk hs hdl hnr,
    runFollowupLoop_send_once now2 creators2 st2 k, ?_⟩
  have hfu : fuFlag st3 m = true := by unfold fuFlag; rw [hlk3]; exact hfu3
  exact (runFollowupLoop_fu now3 creators3 st3 m hfu).2

def wFreshSentRec : Rec :=
  { sent := true, sentAt := some 100, skipped := false, skippedReason := none,
    skippedAt := none, replied := false, followedUp := false,
    followedUpAt := none, reelUrl := "", source := none }

def wFollowedRec : Rec :=
  { sent := true, sentAt := some 100, skipped := false, skippedReason := none,
    skippedAt := none, replied := false, followedUp := true,
    followedUpAt := some 300, reelUrl := "", source := none }

def wNoReplyOutcome : FollowupOutcome := ⟨false, ⟨true, some 3⟩, true⟩

theorem c5_followup_gating_witness :
    lookupRec (runFollowupLoop 200 [("alice", wNoReplyOutcome)]
      [("alice", wFreshSentRec)]).1 "alice" = some wFreshSentRec ∧
    (runFollowupLoop 999999999 [("bob", wNoReplyOutcome)]
      [("bob", wFreshSentRec)]).2.count (Event.followupSend "bob") ≤ 1 ∧
    Event.followupSend "carol" ∉
      (runFollowupLoop 999999999 [("carol", wNoReplyOutcome)]
        [("carol", wFollowedRec)]).2 :=
  c5_followup_gating 200 [("alice", wNoReplyOutcome)]
    [("alice", wFreshSentRec)] "alice" wFreshSentRec (by decide) (by decide)
    (by decide) (by decide)
    999999999 [("bob", wNoReplyOutcome)] [("bob", wFreshSentRec)] "bob"
    999999999 [("carol", wNoReplyOutcome)] [("carol", wFollowedRec)] "carol"
    wFollowedRec (by decide) (by decide)
/-- Claim C6 is false as stated: the fail-open policy only covers
classification calls that throw.  A provider 4xx/5xx error body or a
JSON response without the expected content reaches the parser as an
empty/non-conforming answer, `"MATCH: YES"` is not found, and the
candidate is rejected (and then recorded as screened out). -/
theorem c6_counterexample_provider_error_rejects :
    (screenProfileFn true true (ScreenResp.ok none)).passes = false ∧
    (screenProfileFn true true
      (ScreenResp.ok (some "Sorry, I cannot tell"))).passes = false := by
  constructor <;> rfl

/-- Claim C6, amended: screening fails open — returns a passing
result — when the classification round trip throws (network error,
timeout, non-JSON body), and also whenever screening is disabled or the
provider key is absent; an HTTP-level provider error or a response whose
content lacks `"MATCH: YES"` instead yields a rejection. -/
theorem c6_fail_open_on_throw (e k : Bool) (resp : ScreenResp) :
    (screenProfileFn e k ScreenResp.raise).passes = true ∧
    (screenProfileFn false k resp).passes = true ∧
    (screenProfileFn e false resp).passes = true := by
  refine ⟨?_, by simp [screenProfileFn], by simp [screenProfileFn]⟩
  by_cases hek : e && k
  · simp [screenProfileFn, hek]
  · simp [screenProfileFn, hek]

/-- Claim C7 is false as stated: only the structural (strategy 1) anchor
match consults the denylist.  The metadata strategy returns the reserved
segment "explore" from a page title, and the URL strategy returns it
from an `/explore/p/...` URL. -/
theorem c7_counterexample_metadata_denylist :
    strat2 none "explore on Instagram" = some "explore" ∧
    strat3 "https://www.instagram.com/explore/p/abc/" = some "explore" ∧
    extractHandleFromPost ⟨[], none, "explore on Instagram", ""⟩ =
      some "explore" ∧
    skipPages.contains "explore" = true := by
  refine ⟨?_, ?_, ?_, ?_⟩ <;> rfl

/-- Claim C7, amended: the denylist is enforced only by the structural
anchor strategy (and by the standalone `extractCreatorHandle` helper):
neither ever returns a reserved path segment.  The metadata and
URL-pattern strategies do not consult it. -/
theorem c7_denylist_structural_only (links : List (String × Option String))
    (h : String) (hk : strat1 links = some h)
    (hrefs : List (Option String)) (k : String)
    (hk2 : extractCreatorHandle hrefs = some k) :
    skipPages.contains h = false ∧ skipDialog.contains k = false :=
  ⟨strat1_not_skipped links h hk, extractCreatorHandle_not_skipped hrefs k hk2⟩

theorem c7_denylist_structural_only_witness :
    skipPages.contains "creatorx" = false ∧
    skipDialog.contains "creatorx" = false :=
  c7_denylist_structural_only [("/creatorx", some "creatorx")] "creatorx"
    (by rfl) [some "/creatorx"] "creatorx" (by rfl)

/-- Claim C8 is false as stated: the URL dedup set is created afresh for
every refinement, so the same content URL collected under two different
refinements of one keyword appears twice in the processed list. -/
theorem c8_counterexample_cross_refinement_duplicate :
    ¬ (allReelUrls [[some "/p/x"], [some "/p/x"]]).Nodup ∧
    allReelUrls [[some "/p/x"], [some "/p/x"]] =
      ["https://www.instagram.com/p/x", "https://www.instagram.com/p/x"] := by
  constructor
  · decide
  · rfl

/-- Claim C8, amended: per keyword at most 5 suggested refinements are
read and at most 24 content links are considered per refinement, and
the collected URL list of each single refinement is duplicate-free;
dedup does not span refinements. -/
theorem c8_bounds_and_per_refinement_dedup (links ls : List (Option String)) :
    (collectSuggestionUrls links).length ≤ 5 ∧
    (collectReelUrls ls).length ≤ 24 ∧
    (collectReelUrls ls).Nodup :=
  ⟨collectSuggestionUrls_le links, collectReelUrls_le ls,
    collectReelUrls_nodup ls⟩
/-- Claim C9 is false as stated: `replied` is recorded whenever the
thread shows a reply, with no minimum elapsed time.  Here the reply is
recorded 100 ms after `sentAt`, far inside the 3-day window. -/
theorem c9_counterexample_replied_before_window :
    lookupRec (runFollowupLoop 200
        [("alice", ⟨false, ⟨true, some 7⟩, true⟩)]
        [("alice", wFreshSentRec)]).1 "alice" =
      some { wFreshSentRec with replied := true } ∧
    daysLt3 200 wFreshSentRec.sentAt = true := by
  constructor <;> rfl

/-- Claim C9, amended: `replied` and `followedUp` are only reachable
from `sent` (an unsent record is untouched by the sweep), and the
`followedUp` transition happens only at ≥ 3 days since `sentAt`; the
`replied` transition has no elapsed-time gate. -/
theorem c9_transitions_from_sent (now : Nat)
    (creators : List (String × FollowupOutcome)) (st : StateMap)
    (h : String) (r : Rec)
    (hlk : lookupRec st h = some r) (hns : r.sent = false)
    (now2 : Nat) (creators2 : List (String × FollowupOutcome))
    (st2 : StateMap) (k : String) (rk : Rec)
    (hlk2 : lookupRec st2 k = some rk) (hnf2 : rk.followedUp = false)
    (hfu2 : fuFlag (runFollowupLoop now2 creators2 st2).1 k = true) :
    lookupRec (runFollowupLoop now creators st).1 h = some r ∧
    daysLt3 now2 rk.sentAt = false := by
  have hus : sentFlag st h = false := by unfold sentFlag; rw [hlk]; exact hns
  refine ⟨?_, runFollowupLoop_fu_gate now2 creators2 st2 k rk hlk2 hnf2 hfu2⟩
  rw [runFollowupLoop_unsent now creators st h hus]
  exact hlk

def wUnsentRec : Rec :=
  { sent := false, sentAt := none, skipped := true, skippedReason := none,
    skippedAt := none, replied := false, followedUp := false,
    followedUpAt := none, reelUrl := "", source := none }

theorem c9_transitions_from_sent_witness :
    lookupRec (runFollowupLoop 200 [("alice", wNoReplyOutcome)]
      [("alice", wUnsentRec)]).1 "alice" = some wUnsentRec ∧
    daysLt3 999999999 wFreshSentRec.sentAt = false :=
  c9_transitions_from_sent 200 [("alice", wNoReplyOutcome)]
    [("alice", wUnsentRec)] "alice" wUnsentRec (by decide) (by decide)
    999999999 [("bob", wNoReplyOutcome)] [("bob", wFreshSentRec)] "bob"
    wFreshSentRec (by decide) (by decide) (by decide)

theorem checkReply_error_shape (o : ReplyOutcome)
    (herr : (checkReply o).error = true) : checkReply o = ⟨false, true⟩ := by
  rcases o with ⟨btn, rows⟩
  cases btn
  · rfl
  · rcases rows with _ | n
    · rfl
    · simp [checkReply] at herr

/-- Claim C10: `checkReply` reports a reply iff the opened thread has
strictly more than 6 message rows; a missing Message button or a failed
row query yields `replied = false` with `error = true`; and in that
error case the sweep iteration leaves the record unchanged and sends no
follow-up. -/
theorem c10_reply_detection (n : Nat) (rows : Option Nat) (now : Nat)
    (st : StateMap) (h : String) (fo : FollowupOutcome)
    (hnav : fo.navRaise = false)
    (herr : (checkReply fo.reply).error = true) :
    ((checkReply ⟨true, some n⟩).replied = true ↔ 6 < n) ∧
    checkReply ⟨false, rows⟩ = ⟨false, true⟩ ∧
    checkReply ⟨true, none⟩ = ⟨false, true⟩ ∧
    (processFollowupCreator now st h fo).1 = st ∧
    Event.followupSend h ∉ (processFollowupCreator now st h fo).2.1 := by
  have hshape := checkReply_error_shape fo.reply herr
  refine ⟨by simp [checkReply], rfl, rfl, ?_, ?_⟩ <;>
  · rcases hlk : lookupRec st h with _ | s
    · simp [processFollowupCreator, hlk]
    · by_cases h1 : s.sent
      · simp [processFollowupCreator, hlk, h1, hnav, hshape]
      · simp [processFollowupCreator, hlk, h1]

theorem c10_reply_detection_witness :
    ((checkReply ⟨true, some 7⟩).replied = true ↔ 6 < 7) ∧
    checkReply ⟨false, some 9⟩ = ⟨false, true⟩ ∧
    checkReply ⟨true, none⟩ = ⟨false, true⟩ ∧
    (processFollowupCreator 500 [("alice", wFreshSentRec)] "alice"
      ⟨false, ⟨false, none⟩, true⟩).1 = [("alice", wFreshSentRec)] ∧
    Event.followupSend "alice" ∉
      (processFollowupCreator 500 [("alice", wFreshSentRec)] "alice"
        ⟨false, ⟨false, none⟩, true⟩).2.1 :=
  c10_reply_detection 7 (some 9) 500 [("alice", wFreshSentRec)] "alice"
    ⟨false, ⟨false, none⟩, true⟩ (by decide) (by decide)
